import Mathlib

/-!
Verification development for the Essentia clinic appointment-booking backend.

The repository core is the conversational agent endpoint in `src/app.py`
(session state machine, intent classification, field extraction, booking
finalizer) together with the availability cache in
`src/services/cache_service.py`.  This file gives a shallow embedding of
that code and proves/refutes the frozen claims about it.

Modelling conventions:
* Python strings are `String`/`List Char`; `message.lower()` and `\b`
  word-boundary semantics are modelled for ASCII plus the Portuguese
  accented letters that occur in the source patterns and data.
* The regular expressions used by the source are embedded through a small
  exact matcher (`Piece`, `matchPieces`, `searchMatch`).  Every pattern in
  the source is a sequence of character classes with greedy quantifiers,
  word boundaries and anchors; alternation groups such as `(?:o\s+)?` are
  expanded into explicit alternatives, which preserves `re.search`
  semantics (leftmost position first, alternatives in written order).
* The relational store is an explicit record of tables; SQLAlchemy's
  one-commit-per-unit-of-work transaction is modelled by running the
  finalizer on a draft copy that is published only at the commit point
  (a session closed without commit is rolled back by `get_db`'s cleanup).
* The Redis store is a list of (key, value, absolute expiry) entries;
  `json.dumps`/`json.loads` round-trips are the identity on the `Json`
  values the service stores.
-/

/-- The closed intent set returned by `analyze_intent` (src/app.py). -/
inductive Intent where
  | greeting
  | payment_info
  | schedule_request
  | book_appointment
  | cancel_appointment
  | number_selection
  | user_data
  | unknown
deriving Repr, DecidableEq

/-! ## Character helpers (Python `str.lower`, `str.strip`, `\w`, `\s`, `\d`) -/

/-- The accented letters appearing in the source's patterns and data, with
their lowercase forms.  Python's `str.lower` maps them pointwise. -/
def accentLowerTable : List (Char × Char) :=
  [('Á', 'á'), ('À', 'à'), ('Â', 'â'), ('Ã', 'ã'), ('É', 'é'), ('Ê', 'ê'),
   ('Í', 'í'), ('Ó', 'ó'), ('Ô', 'ô'), ('Õ', 'õ'), ('Ú', 'ú'), ('Ü', 'ü'),
   ('Ç', 'ç')]

/-- Model of Python `str.lower` on one character (ASCII plus the accented
letters above; other characters are fixed). -/
def pyLowerChar (c : Char) : Char :=
  if 'A' ≤ c ∧ c ≤ 'Z' then Char.ofNat (c.toNat + 32)
  else
    match accentLowerTable.find? (fun p => p.1 == c) with
    | some p => p.2
    | none => c

/-- Model of Python `str.title()` on a single lowercase word: uppercase the
first character (used by `extract_doctor_name_from_message`). -/
def pyUpperChar (c : Char) : Char :=
  if 'a' ≤ c ∧ c ≤ 'z' then Char.ofNat (c.toNat - 32)
  else
    match accentLowerTable.find? (fun p => p.2 == c) with
    | some p => p.1
    | none => c

/-- Python `\s` (ASCII whitespace as used by the source's messages). -/
def isWsChar (c : Char) : Bool :=
  c == ' ' || c == '\t' || c == '\n' || c == '\r'

/-- Python `\w` / word character for `\b` boundaries: alphanumeric or
underscore (ASCII plus the accented letters of `accentLowerTable`). -/
def isWordCh (c : Char) : Bool :=
  c.isAlphanum || c == '_' ||
    (accentLowerTable.any (fun p => p.1 == c || p.2 == c))

/-- Python `str.strip()` on a character list. -/
def trimWs (cs : List Char) : List Char :=
  ((cs.dropWhile isWsChar).reverse.dropWhile isWsChar).reverse

/-- `w in s` (Python substring containment). -/
def containsSub : List Char → List Char → Bool
  | [], w => w.isEmpty
  | c :: rest, w => w.isPrefixOf (c :: rest) || containsSub rest w

/-- Case-insensitive containment: SQLAlchemy `ilike '%needle%'`. -/
def containsCI (hay needle : String) : Bool :=
  containsSub (hay.data.map pyLowerChar) (needle.data.map pyLowerChar)

/-- Digits of a decimal numeral to a `Nat` (Python `int(...)` on a `\d+`
match). -/
def natOfDigits (cs : List Char) : Nat :=
  cs.foldl (fun a c => a * 10 + (c.toNat - '0'.toNat)) 0

/-! ## Exact matcher for the source's regular expressions

A pattern is a list of `Piece`s.  Each source pattern is a sequence of
character classes with greedy `{m,n}`-style quantifiers, plus word
boundaries and anchors; `matchPieces` performs the same greedy matching
with backtracking that `re` does on such patterns, and `searchMatch`
implements `re.search`'s leftmost-position, first-alternative semantics. -/

/-- One piece of a pattern: a character class with a greedy repetition
count range, a word boundary, or an anchor. -/
inductive Piece where
  | cls (f : Char → Bool) (minRep : Nat) (maxRep : Option Nat)
  | wordB
  | startA
  | endA

/-- Length of the maximal prefix of `cs` inside class `f`. -/
def countRun (f : Char → Bool) : List Char → Nat
  | [] => 0
  | c :: rest => if f c then countRun f rest + 1 else 0

/-- `\b`: true when exactly one side is a word character (an absent side
counts as non-word). -/
def isBoundaryAt (prev next : Option Char) : Bool :=
  (match prev with | some c => isWordCh c | none => false) !=
    (match next with | some c => isWordCh c | none => false)

/-- The last character among the first `k` of `cs` (`prev` when `k = 0`);
used to carry the `\b` context across a class piece. -/
def prevCharAfter (prev : Option Char) (cs : List Char) (k : Nat) : Option Char :=
  if k = 0 then prev else cs.get? (k - 1)

/-- Match the pieces against a prefix of `cs` (`prev` is the character just
before `cs`, for `\b`/`^`).  Returns the list of per-piece consumption
counts of the first (greedy) successful match, or `none`. -/
def matchPieces : Option Char → List Piece → List Char → Option (List Nat)
  | _, [], _ => some []
  | prev, Piece.wordB :: rest, cs =>
      if isBoundaryAt prev cs.head? then
        (matchPieces prev rest cs).map (fun l => 0 :: l)
      else none
  | prev, Piece.startA :: rest, cs =>
      if prev.isNone then (matchPieces prev rest cs).map (fun l => 0 :: l)
      else none
  | prev, Piece.endA :: rest, cs =>
      if cs.isEmpty then (matchPieces prev rest cs).map (fun l => 0 :: l)
      else none
  | prev, Piece.cls f mn mx :: rest, cs =>
      let run := countRun f cs
      let upper := match mx with | some m => Nat.min m run | none => run
      if upper < mn then none
      else
        ((List.range (upper + 1 - mn)).map (fun i => upper - i)).findSome?
          (fun k =>
            (matchPieces (prevCharAfter prev cs k) rest (cs.drop k)).map
              (fun l => k :: l))

/-- Try each alternative in written order at the current position. -/
def tryAlts (alts : List (List Piece)) (prev : Option Char) (cs : List Char) :
    Option (Nat × List Nat) :=
  alts.enum.findSome? fun pi =>
    (matchPieces prev pi.2 cs).map (fun l => (pi.1, l))

/-- `re.search` over an ordered list of alternatives: scan positions left to
right, at each position try the alternatives in order.  Returns
(position, alternative index, per-piece consumptions). -/
def searchMatchFrom (alts : List (List Piece)) :
    Option Char → List Char → Option (Nat × Nat × List Nat)
  | prev, [] => (tryAlts alts prev []).map (fun al => (0, al.1, al.2))
  | prev, c :: rest =>
      match tryAlts alts prev (c :: rest) with
      | some al => some (0, al.1, al.2)
      | none =>
          (searchMatchFrom alts (some c) rest).map
            (fun r => (r.1 + 1, r.2.1, r.2.2))

/-- `re.search` of an alternation against a whole string. -/
def searchMatch (alts : List (List Piece)) (cs : List Char) :
    Option (Nat × Nat × List Nat) :=
  searchMatchFrom alts none cs

/-- Boolean `re.search` test. -/
def research (alts : List (List Piece)) (cs : List Char) : Bool :=
  (searchMatch alts cs).isSome

/-- Loop `for pattern in patterns: if re.search(pattern, s): ...` over a
group of patterns, each itself an alternation. -/
def matchesAny (groups : List (List (List Piece))) (cs : List Char) : Bool :=
  groups.any (fun alts => research alts cs)

/-- The text captured by pieces `[gFrom, gTo)` of a match at position
`pos` with consumptions `l`. -/
def groupSlice (cs : List Char) (pos : Nat) (l : List Nat) (gFrom gTo : Nat) :
    List Char :=
  let pre := (l.take gFrom).foldl (fun a b => a + b) 0
  let len := ((l.take gTo).foldl (fun a b => a + b) 0) - pre
  ((cs.drop pos).drop pre).take len

/-! ### Pattern-building helpers -/

/-- Literal text as pieces. -/
def litP (s : String) : List Piece :=
  s.data.map (fun c => Piece.cls (fun x => x == c) 1 (some 1))

/-- A single optional literal character (`c?`). -/
def optC (c : Char) : Piece :=
  Piece.cls (fun x => x == c) 0 (some 1)

/-- `\d{mn,mx}`. -/
def digitsP (mn : Nat) (mx : Option Nat) : Piece :=
  Piece.cls Char.isDigit mn mx

/-- `\s{mn,}` pieces. -/
def wsP (mn : Nat) : Piece :=
  Piece.cls isWsChar mn none

/-- `.*` — any character except newline, zero or more (greedy). -/
def anyStar : Piece :=
  Piece.cls (fun c => c != '\n') 0 none

/-- `\bword\b` as one alternative. -/
def wordOf (s : String) : List Piece :=
  [Piece.wordB] ++ litP s ++ [Piece.wordB]

/-- `\b stem [s]? \b` — a word with an optional trailing letter, as in
`horários?`. -/
def wordOpt (stem : String) (tail : Char) : List Piece :=
  [Piece.wordB] ++ litP stem ++ [optC tail] ++ [Piece.wordB]

/-- `\b a .* b \b` — two literals bridged by `.*`, as in
`quero.*consulta`. -/
def seqOf (a b : String) : List Piece :=
  [Piece.wordB] ++ litP a ++ [anyStar] ++ litP b ++ [Piece.wordB]

example : research [wordOf "olá"] ("olá tudo".data) = true := by decide
example : research [wordOf "oi"] ("oito".data) = false := by decide
example : research [seqOf "quero" "consulta"]
    ("quero marcar consulta hoje".data) = true := by decide

/-! ## Intent patterns (`analyze_intent`, src/app.py lines 678-753)

Each Python pattern group (a list of regexes, each possibly an alternation)
is embedded as a list of alternatives; the group matches when any
alternative matches, exactly as the `for pattern in ...: if re.search`
loops do. -/

/-- `greeting_patterns`. -/
def greetingAlts : List (List Piece) :=
  [wordOf "oi", wordOf "olá", wordOf "ola", wordOf "hey", wordOf "hi",
   wordOf "hello", wordOf "bom dia", wordOf "boa tarde", wordOf "boa noite",
   wordOf "tchau", wordOf "tchauzinho", wordOf "fui", wordOf "valeu",
   [Piece.wordB] ++ litP "obrigad" ++
     [Piece.cls (fun c => c == 'o' || c == 'a') 1 (some 1)] ++ [Piece.wordB],
   wordOf "como vai", wordOf "tudo bem", wordOf "tudo bom"]

/-- `payment_patterns`. -/
def paymentAlts : List (List Piece) :=
  [wordOf "pagamento", wordOf "pagar", wordOf "valor", wordOf "preço",
   wordOf "preços", wordOf "custo", wordOf "quanto custa", wordOf "valores",
   wordOf "payment", wordOf "pay", wordOf "cost", wordOf "price",
   wordOf "pricing"]

/-- `cancel_patterns`. -/
def cancelAlts : List (List Piece) :=
  [wordOf "cancelar", wordOf "desmarcar", seqOf "remover" "consulta",
   wordOf "cancel", seqOf "remove" "appointment"]

/-- `schedule_request_patterns` (`s?` optional plurals expanded with
`optC`). -/
def scheduleReqAlts : List (List Piece) :=
  [[Piece.wordB] ++ litP "horário" ++ [optC 's'] ++ [anyStar] ++
     litP "disponívei" ++ [optC 's'] ++ [Piece.wordB],
   [Piece.wordB] ++ litP "disponívei" ++ [optC 's'] ++ [anyStar] ++
     litP "horário" ++ [optC 's'] ++ [Piece.wordB],
   [Piece.wordB] ++ litP "que" ++ [anyStar] ++ litP "horário" ++ [optC 's'] ++
     [anyStar] ++ litP "tem" ++ [Piece.wordB],
   [Piece.wordB] ++ litP "quais" ++ [anyStar] ++ litP "horário" ++
     [optC 's'] ++ [Piece.wordB],
   [Piece.wordB] ++ litP "que" ++ [anyStar] ++ litP "horário" ++ [optC 's'] ++
     [Piece.wordB],
   [Piece.wordB] ++ litP "ver" ++ [anyStar] ++ litP "horário" ++ [optC 's'] ++
     [Piece.wordB],
   [Piece.wordB] ++ litP "mostrar" ++ [anyStar] ++ litP "horário" ++
     [optC 's'] ++ [Piece.wordB],
   [Piece.wordB] ++ litP "listar" ++ [anyStar] ++ litP "horário" ++
     [optC 's'] ++ [Piece.wordB],
   seqOf "available" "schedule", seqOf "show" "schedule",
   seqOf "list" "schedule",
   [Piece.wordB] ++ litP "quando" ++ [anyStar] ++ litP "tem" ++ [anyStar] ++
     litP "vaga" ++ [Piece.wordB],
   seqOf "tem" "vaga"]

/-- `book_patterns`. -/
def bookAlts : List (List Piece) :=
  [wordOf "agendar", wordOf "marcar", seqOf "quero" "consulta",
   seqOf "preciso" "consulta",
   wordOf "appointment", wordOf "schedule", wordOf "booking"]

/-- `^\s*(\d+)\s*$` — a bare number. -/
def numDirectPat : List Piece :=
  [Piece.startA, wsP 0, digitsP 1 none, wsP 0, Piece.endA]

/-- `number_patterns` (digits or spelled-out words). -/
def numberAlts : List (List Piece) :=
  [numDirectPat,
   wordOf "um", wordOf "dois", wordOf "três", wordOf "quatro",
   wordOf "cinco", wordOf "seis", wordOf "sete", wordOf "oito",
   wordOf "nove", wordOf "dez",
   wordOf "one", wordOf "two", wordOf "three", wordOf "four",
   wordOf "five", wordOf "six", wordOf "seven", wordOf "eight",
   wordOf "nine", wordOf "ten"]

/-! ## `is_user_data` patterns (src/app.py lines 755-784) -/

/-- `\d{3}\.?\d{3}\.?\d{3}-?\d{2}` — CPF shape. -/
def cpfPat : List Piece :=
  [digitsP 3 (some 3), optC '.', digitsP 3 (some 3), optC '.',
   digitsP 3 (some 3), optC '-', digitsP 2 (some 2)]

/-- `[A-Za-z0-9._%+-]`. -/
def emailLocalCh (c : Char) : Bool :=
  c.isAlphanum || c == '.' || c == '_' || c == '%' || c == '+' || c == '-'

/-- `[A-Za-z0-9.-]`. -/
def emailHostCh (c : Char) : Bool :=
  c.isAlphanum || c == '.' || c == '-'

/-- `[A-Z|a-z]` — note the literal `|` inside the class, kept faithfully. -/
def emailTldCh (c : Char) : Bool :=
  c.isAlpha || c == '|'

/-- `\b[A-Za-z0-9._%+-]+@[A-Za-z0-9.-]+\.[A-Z|a-z]{2,}\b` — email shape. -/
def emailPat : List Piece :=
  [Piece.wordB, Piece.cls emailLocalCh 1 none] ++ litP "@" ++
    [Piece.cls emailHostCh 1 none] ++ litP "." ++
    [Piece.cls emailTldCh 2 none, Piece.wordB]

/-- `(\(?\d{2}\)?\s?\d{4,5}[-\s]?\d{4})` — phone shape. -/
def phonePat : List Piece :=
  [optC '(', digitsP 2 (some 2), optC ')', Piece.cls isWsChar 0 (some 1),
   digitsP 4 (some 5), Piece.cls (fun c => c == '-' || isWsChar c) 0 (some 1),
   digitsP 4 (some 4)]

/-- `[\/\-]` date separator. -/
def dateSepP : Piece :=
  Piece.cls (fun c => c == '/' || c == '-') 1 (some 1)

/-- `\d{1,2}[\/\-]\d{1,2}[\/\-]\d{4}` — day/month/year shape. -/
def dmyPat : List Piece :=
  [digitsP 1 (some 2), dateSepP, digitsP 1 (some 2), dateSepP,
   digitsP 4 (some 4)]

/-- `[A-ZÁÊÇÃÕ]`. -/
def upperNameCh (c : Char) : Bool :=
  ('A' ≤ c ∧ c ≤ 'Z') || c == 'Á' || c == 'Ê' || c == 'Ç' || c == 'Ã' ||
    c == 'Õ'

/-- `[a-záêçãõ]`. -/
def lowerNameCh (c : Char) : Bool :=
  ('a' ≤ c ∧ c ≤ 'z') || c == 'á' || c == 'ê' || c == 'ç' || c == 'ã' ||
    c == 'õ'

/-- Split on whitespace runs (the words of `\s+`-separated text). -/
def splitWsAux : List Char → List Char → List (List Char)
  | [], acc => if acc.isEmpty then [] else [acc.reverse]
  | c :: rest, acc =>
      if isWsChar c then
        if acc.isEmpty then splitWsAux rest []
        else acc.reverse :: splitWsAux rest []
      else splitWsAux rest (c :: acc)

/-- Words of a string, split on whitespace runs. -/
def splitWs (cs : List Char) : List (List Char) :=
  splitWsAux cs []

/-- One `[A-ZÁÊÇÃÕ][a-záêçãõ]+` word. -/
def isNameWord : List Char → Bool
  | [] => false
  | c :: rest => upperNameCh c && !rest.isEmpty && rest.all lowerNameCh

/-- The anchored name pattern
`^[A-ZÁÊÇÃÕ][a-záêçãõ]+(\s+[A-ZÁÊÇÃÕ][a-záêçãõ]+)+\s*$` applied (as in the
source) to the stripped message: at least two name words separated by
whitespace runs and nothing else.  On a stripped string this word-split
formulation is exactly the anchored regex. -/
def isFullName (message : String) : Bool :=
  let ws := splitWs (trimWs message.data)
  decide (ws.length ≥ 2) && ws.all isNameWord

/-- `is_user_data` (src/app.py): does the message look like a CPF, email,
phone, birth date, or a two-or-more-capitalized-word name? -/
def is_user_data (message : String) : Bool :=
  research [cpfPat] message.data ||
  research [emailPat] message.data ||
  research [phonePat] message.data ||
  research [dmyPat] message.data ||
  isFullName message

/-- Lowered-and-stripped view of a message (`message.lower().strip()`). -/
def mlOf (message : String) : List Char :=
  trimWs (message.data.map pyLowerChar)

/-- `analyze_intent` (src/app.py lines 678-753): the ordered cascade of
pattern groups — greeting, payment, schedule request, cancel, book,
number selection — then the `is_user_data` structural fallback. -/
def analyze_intent (message : String) : Intent :=
  let ml := mlOf message
  if matchesAny [greetingAlts] ml then Intent.greeting
  else if matchesAny [paymentAlts] ml then Intent.payment_info
  else if matchesAny [scheduleReqAlts] ml then Intent.schedule_request
  else if matchesAny [cancelAlts] ml then Intent.cancel_appointment
  else if matchesAny [bookAlts] ml then Intent.book_appointment
  else if matchesAny [numberAlts] ml then Intent.number_selection
  else if is_user_data message then Intent.user_data
  else Intent.unknown

example : analyze_intent "Oi" = Intent.greeting := by decide
example : analyze_intent "quanto custa uma consulta" = Intent.payment_info := by
  decide
example : analyze_intent "quero agendar uma consulta" = Intent.book_appointment := by
  decide
example : analyze_intent "quais horários tem" = Intent.schedule_request := by
  decide
example : analyze_intent "Maria Silva" = Intent.user_data := by decide
example : analyze_intent " 2 " = Intent.number_selection := by decide
example : analyze_intent "cancelar consulta" = Intent.cancel_appointment := by
  decide

/-! ## Field extractors (src/app.py lines 786-847, 1144-1239) -/

/-- The ordered word-number dictionary of `extract_number_from_message`
(Python dicts preserve insertion order; the first substring hit wins). -/
def wordNumbers : List (String × Nat) :=
  [("um", 1), ("dois", 2), ("três", 3), ("quatro", 4), ("cinco", 5),
   ("seis", 6), ("sete", 7), ("oito", 8), ("nove", 9), ("dez", 10),
   ("one", 1), ("two", 2), ("three", 3), ("four", 4), ("five", 5),
   ("six", 6), ("seven", 7), ("eight", 8), ("nine", 9), ("ten", 10)]

/-- `extract_number_from_message` (src/app.py lines 786-806): a bare
`^\s*(\d+)\s*$` number on the stripped message, else the first word-number
contained (plain substring test) in the lowered stripped message. -/
def extract_number_from_message (message : String) : Option Nat :=
  let t := trimWs message.data
  match searchMatch [numDirectPat] t with
  | some (pos, _, l) => some (natOfDigits (groupSlice t pos l 2 3))
  | none =>
      let ml := trimWs (message.data.map pyLowerChar)
      (wordNumbers.find? (fun p => containsSub ml p.1.data)).map (fun p => p.2)

example : extract_number_from_message " 12 " = some 12 := by decide
example : extract_number_from_message "0" = some 0 := by decide
example : extract_number_from_message "dois" = some 2 := by decide
example : extract_number_from_message "uma consulta" = some 1 := by decide
example : extract_number_from_message "nada" = none := by decide

/-- Gregorian-calendar validity as checked by `datetime.date` (Python
raises `ValueError` outside these bounds). -/
def isLeapYear (y : Nat) : Bool :=
  (y % 4 == 0 && y % 100 != 0) || y % 400 == 0

/-- Days in a month, Gregorian. -/
def daysInMonth (y m : Nat) : Nat :=
  if m == 2 then (if isLeapYear y then 29 else 28)
  else if m == 4 || m == 6 || m == 9 || m == 11 then 30
  else 31

/-- `datetime.date(y, m, d)` succeeds exactly on these triples. -/
def isValidDate (y m d : Nat) : Bool :=
  1 ≤ y && y ≤ 9999 && 1 ≤ m && m ≤ 12 && 1 ≤ d && d ≤ daysInMonth y m

/-- Zero-pad to two digits. -/
def pad2 (n : Nat) : String :=
  if n < 10 then "0" ++ toString n else toString n

/-- Zero-pad to four digits. -/
def pad4 (n : Nat) : String :=
  if n < 10 then "000" ++ toString n
  else if n < 100 then "00" ++ toString n
  else if n < 1000 then "0" ++ toString n
  else toString n

/-- `date(y, m, d).isoformat()`. -/
def isoDate (y m d : Nat) : String :=
  pad4 y ++ "-" ++ pad2 m ++ "-" ++ pad2 d

/-- The field mapping produced by `extract_user_data`. -/
structure UserData where
  name : Option String := none
  cpf : Option String := none
  email : Option String := none
  phone : Option String := none
  birth_date : Option String := none
deriving Repr, DecidableEq

/-- Whole-match text of the leftmost match of a single pattern. -/
def extractWhole (pat : List Piece) (cs : List Char) : Option String :=
  (searchMatch [pat] cs).map fun r =>
    String.mk (groupSlice cs r.1 r.2.2 0 pat.length)

/-- `extract_user_data` (src/app.py lines 808-847): independently extract
name, CPF, email, phone and birth date.  The anchored name pattern on the
stripped message captures the stripped message itself; the birth date is
parsed with `datetime.date` and stored in ISO form, invalid dates are
dropped. -/
def extract_user_data (message : String) : UserData :=
  let nameV : Option String :=
    if isFullName message then some (String.mk (trimWs message.data))
    else none
  let cpfV := extractWhole cpfPat message.data
  let emailV := extractWhole emailPat message.data
  let phoneV := extractWhole phonePat message.data
  let birthV : Option String :=
    match searchMatch [dmyPat] message.data with
    | some (pos, _, l) =>
        let d := natOfDigits (groupSlice message.data pos l 0 1)
        let m := natOfDigits (groupSlice message.data pos l 2 3)
        let y := natOfDigits (groupSlice message.data pos l 4 5)
        if isValidDate y m d then some (isoDate y m d) else none
    | none => none
  { name := nameV, cpf := cpfV, email := emailV, phone := phoneV,
    birth_date := birthV }

example : (extract_user_data "Maria Silva").name = some "Maria Silva" := by
  decide
example : (extract_user_data "123.456.789-01").cpf = some "123.456.789-01" := by
  decide
example : (extract_user_data "meu email é ana@test.com").email =
    some "ana@test.com" := by decide
example : (extract_user_data "(11) 98765-4321").phone =
    some "(11) 98765-4321" := by decide
example : (extract_user_data "20/05/1990").birth_date = some "1990-05-20" := by
  decide
example : (extract_user_data "31/02/1990").birth_date = none := by decide

/-- `[a-záêçãõ\s]` — the doctor-name capture class. -/
def docNameCh (c : Char) : Bool :=
  lowerNameCh c || isWsChar c

/-- The capture group `([a-záêçãõ\s]+)` as the final piece. -/
def docGrp : Piece :=
  Piece.cls docNameCh 1 none

/-- The doctor-name patterns of `extract_doctor_name_from_message`
(src/app.py lines 1193-1239), in source order, with the `(?:o\s+)?`-style
optional groups expanded into explicit alternatives (which preserves
`re.search` semantics).  Every alternative ends with the capture class. -/
def doctorPatterns : List (List (List Piece)) :=
  [[litP "dr" ++ [optC '.', wsP 1, docGrp]],
   [litP "doctor" ++ [wsP 1, docGrp]],
   [litP "doutor" ++ [wsP 1, docGrp]],
   [litP "doutora" ++ [wsP 1, docGrp]],
   [litP "com" ++ [wsP 1] ++ litP "o" ++ [wsP 1] ++ litP "dr" ++
      [optC '.', wsP 1, docGrp],
    litP "com" ++ [wsP 1] ++ litP "dr" ++ [optC '.', wsP 1, docGrp]],
   [litP "com" ++ [wsP 1] ++ litP "o" ++ [wsP 1] ++ litP "doutor" ++
      [wsP 1, docGrp],
    litP "com" ++ [wsP 1] ++ litP "doutor" ++ [wsP 1, docGrp]],
   [litP "com" ++ [wsP 1] ++ litP "a" ++ [wsP 1] ++ litP "doutora" ++
      [wsP 1, docGrp],
    litP "com" ++ [wsP 1] ++ litP "doutora" ++ [wsP 1, docGrp]],
   [litP "with" ++ [wsP 1] ++ litP "dr" ++ [optC '.', wsP 1, docGrp],
    litP "with" ++ [wsP 1, docGrp]]]

/-- Connector words skipped during doctor-name cleanup. -/
def docStopword (p : List Char) : Bool :=
  let s := String.mk p
  s == "o" || s == "a" || s == "da" || s == "de" || s == "do" || s == "e"

/-- Python `part.title()` on a lowercase word. -/
def titleWord (p : List Char) : String :=
  match p with
  | [] => ""
  | c :: rest => String.mk (pyUpperChar c :: rest)

/-- The cleanup loop: walk the first three parts, skip connector words,
title-case the rest, stop once two parts are collected. -/
def pickDocParts : List (List Char) → List String → List String
  | [], acc => acc
  | p :: rest, acc =>
      let acc' := if docStopword p then acc else acc ++ [titleWord p]
      if acc'.length ≥ 2 then acc' else pickDocParts rest acc'

/-- Collapse/strip whitespace, split, then run the cleanup loop; `none`
when no parts survive (the Python loop then falls through to the next
pattern). -/
def cleanDoctorName (g : List Char) : Option String :=
  let parts := splitWs g
  let clean := pickDocParts (parts.take 3) []
  if clean.isEmpty then none else some (" ".intercalate clean)

/-- `extract_doctor_name_from_message` (src/app.py lines 1193-1239): try
each pattern in order on the lowered message, cleaning the captured class;
the first pattern whose cleanup yields parts wins. -/
def extract_doctor_name_from_message (message : String) : Option String :=
  let ml := message.data.map pyLowerChar
  doctorPatterns.findSome? fun alts =>
    match searchMatch alts ml with
    | some (pos, ai, l) =>
        match alts.get? ai with
        | some alt => cleanDoctorName (groupSlice ml pos l (alt.length - 1) alt.length)
        | none => none
    | none => none

example : extract_doctor_name_from_message "Quero consulta com Dr. Silva" =
    some "Silva" := by decide
example : extract_doctor_name_from_message "consulta amanhã" = none := by
  decide

/-- `\d{4}[\/\-]\d{1,2}[\/\-]\d{1,2}` — the YYYY/MM/DD alternative of
`extract_date_from_message`. -/
def ymdPat : List Piece :=
  [digitsP 4 (some 4), dateSepP, digitsP 1 (some 2), dateSepP,
   digitsP 1 (some 2)]

/-- `extract_date_from_message` (src/app.py lines 1144-1162): try
DD/MM/YYYY then YYYY/MM/DD; an invalid calendar date falls through to the
next pattern.  The result is kept in ISO form (the Python `date` object
compares against `Schedule.date`, which this model stores in ISO form). -/
def extract_date_from_message (message : String) : Option String :=
  let tryDmy : Option String :=
    match searchMatch [dmyPat] message.data with
    | some (pos, _, l) =>
        let d := natOfDigits (groupSlice message.data pos l 0 1)
        let m := natOfDigits (groupSlice message.data pos l 2 3)
        let y := natOfDigits (groupSlice message.data pos l 4 5)
        if isValidDate y m d then some (isoDate y m d) else none
    | none => none
  match tryDmy with
  | some v => some v
  | none =>
      match searchMatch [ymdPat] message.data with
      | some (pos, _, l) =>
          let y := natOfDigits (groupSlice message.data pos l 0 1)
          let m := natOfDigits (groupSlice message.data pos l 2 3)
          let d := natOfDigits (groupSlice message.data pos l 4 5)
          if isValidDate y m d then some (isoDate y m d) else none
      | none => none

example : extract_date_from_message "dia 10/01/2025 por favor" =
    some "2025-01-10" := by decide
example : extract_date_from_message "2025/01/10" = some "2025-01-10" := by
  decide
example : extract_date_from_message "sem data" = none := by decide

/-! ## Cache service (src/services/cache_service.py)

Values travel through Redis as JSON text; `json.dumps` followed by
`json.loads` is the identity on the JSON-representable values the service
stores, so the store holds `Json` values directly, each with an absolute
expiry instant (`SETEX key ttl value` stores expiry `now + ttl`, and `GET`
returns the value only while `now < expiry`). -/

/-- JSON values as produced by `json.loads`. -/
inductive Json where
  | str : String → Json
  | num : Nat → Json
  | arr : List Json → Json
  | obj : List (String × Json) → Json

/-- The Redis store: key, value, absolute expiry. -/
abbrev RedisStore := List (String × Json × Nat)

/-- `SETEX`: insert-or-replace with an absolute expiry. -/
def redis_setex (st : RedisStore) (k : String) (expiry : Nat) (v : Json) :
    RedisStore :=
  (k, v, expiry) :: List.filter (fun e => e.1 != k) st

/-- `GET`: the stored value while unexpired, else a miss. -/
def redis_get (st : RedisStore) (now : Nat) (k : String) : Option Json :=
  match List.find? (fun e => e.1 == k) st with
  | some e => if now < e.2.2 then some e.2.1 else none
  | none => none

namespace CacheService

/-- `__init__` (lines 19-37): a failed connection (or ping) leaves
`redis_client = None`; every operation then takes its early-return
branch. -/
def init (redisAvailable : Bool) (st : RedisStore) : Option RedisStore :=
  if redisAvailable then some st else none

/-- Python `date or "all"` (an empty string is falsy). -/
def dateKeyPart : Option String → String
  | none => "all"
  | some s => if s == "" then "all" else s

/-- Python `doctor_id or "all"` (`0` is falsy). -/
def doctorKeyPart : Option Nat → String
  | none => "all"
  | some d => if d == 0 then "all" else toString d

/-- The sorted-kwargs key data: `sorted({date, doctor_id})` puts `date`
first. -/
def cacheKeyData (date : Option String) (doctor_id : Option Nat) : String :=
  "schedules:date=" ++ dateKeyPart date ++ ":doctor_id=" ++
    doctorKeyPart doctor_id

/-- `_generate_cache_key` (lines 39-50).  Oversized keys are collapsed
through a deterministic digest of `key_data`; the digest is modelled by an
injective stand-in since only its determinism (equal inputs give equal
keys) is relied upon by callers. -/
def genCacheKey (date : Option String) (doctor_id : Option Nat) : String :=
  let key_data := cacheKeyData date doctor_id
  if key_data.length > 200 then "schedules:hash:" ++ key_data else key_data

/-- `get_available_schedules` (lines 52-75): early miss when the client is
absent, else `GET` of the generated key; any JSON payload found is
returned whole (`schedules = json.loads(cached_data); return schedules`). -/
def get_available_schedules (client : Option RedisStore) (now : Nat)
    (date : Option String) (doctor_id : Option Nat) : Option Json :=
  match client with
  | none => none
  | some st => redis_get st now (genCacheKey date doctor_id)

/-- The wrapper object `set_available_schedules` stores. -/
def cachePayload (now : Nat) (schedules : List Json) : Json :=
  Json.obj [("schedules", Json.arr schedules),
            ("cached_at", Json.str (toString now)),
            ("total_count", Json.num schedules.length)]

/-- `set_available_schedules` (lines 77-107): `False` and no write when the
client is absent, else `SETEX key ttl payload` and `True`. -/
def set_available_schedules (client : Option RedisStore) (now : Nat)
    (schedules : List Json) (date : Option String) (doctor_id : Option Nat)
    (ttl : Nat) : Bool × Option RedisStore :=
  match client with
  | none => (false, none)
  | some st =>
      let key := genCacheKey date doctor_id
      (true, some (redis_setex st key (now + ttl) (cachePayload now schedules)))

/-- Does a key match one of the invalidation glob patterns
(`schedules:*`, plus `schedules:*doctor_id=D*` / `schedules:*date=Dt*`
when given)?  The broad first pattern subsumes the others; the union is
kept faithful to the source. -/
def keyInvalidated (doctor_id : Option Nat) (date : Option String)
    (k : String) : Bool :=
  List.isPrefixOf "schedules:".data k.data ||
  (match doctor_id with
   | some d =>
       if d == 0 then false
       else List.isPrefixOf "schedules:".data k.data &&
         containsSub k.data ("doctor_id=" ++ toString d).data
   | none => false) ||
  (match date with
   | some dt =>
       if dt == "" then false
       else List.isPrefixOf "schedules:".data k.data &&
         containsSub k.data ("date=" ++ dt).data
   | none => false)

/-- `invalidate_schedule_cache` (lines 109-135): no-op when the client is
absent, else delete every key matching the patterns. -/
def invalidate_schedule_cache (client : Option RedisStore)
    (doctor_id : Option Nat) (date : Option String) : Option RedisStore :=
  match client with
  | none => none
  | some st =>
      some (List.filter (fun e => !(keyInvalidated doctor_id date e.1)) st)

end CacheService

/-! ## Relational store (src/models, src/database/connection.py)

Tables as explicit lists of rows.  Dates and times are kept in the ISO
text form the code itself moves around (`str(schedule.date)`,
`.isoformat()`, `strptime` round-trips).  SQLAlchemy's unit of work is
modelled by threading a draft copy of the store through a mutation
sequence and publishing it only at `db.commit()`; a session discarded
without commit (as `get_db`'s cleanup does on error) leaves the stored
state untouched. -/

structure PatientRow where
  id : Nat
  name : String
  cpf : String
  email : String
  phone : String
  birth_date : String
deriving Repr, DecidableEq

structure DoctorRow where
  id : Nat
  name : String
  specialty : String
deriving Repr, DecidableEq

structure AppointmentRow where
  id : Nat
  patient_id : Nat
  doctor_id : Nat
  appointment_date : String
  appointment_time : String
  status : String
deriving Repr, DecidableEq

structure ScheduleRow where
  id : Nat
  doctor_id : Nat
  date : String
  start_time : String
  end_time : String
  is_available : String
deriving Repr, DecidableEq

structure DB where
  patients : List PatientRow
  doctors : List DoctorRow
  appointments : List AppointmentRow
  schedules : List ScheduleRow
  nextPatientId : Nat
  nextAppointmentId : Nat
deriving Repr, DecidableEq

/-- Split a character list at a separator (Python `str.split(sep)`). -/
def splitChAux (sep : Char) : List Char → List Char → List (List Char)
  | [], acc => [acc.reverse]
  | c :: rest, acc =>
      if c == sep then acc.reverse :: splitChAux sep rest []
      else splitChAux sep rest (c :: acc)

/-- Split a character list at a separator character. -/
def splitCh (sep : Char) (cs : List Char) : List (List Char) :=
  splitChAux sep cs []

/-- A non-empty all-digit component. -/
def allDigits (cs : List Char) : Bool :=
  !cs.isEmpty && cs.all Char.isDigit

/-- `strptime(s, '%Y-%m-%d')`: digits split by `-`, a valid calendar
date. -/
def parse_date_iso (s : String) : Option (Nat × Nat × Nat) :=
  match splitCh '-' s.data with
  | [y, m, d] =>
      if allDigits y && allDigits m && allDigits d then
        let yn := natOfDigits y
        let mn := natOfDigits m
        let dn := natOfDigits d
        if isValidDate yn mn dn then some (yn, mn, dn) else none
      else none
  | _ => none

/-- `strptime(s, '%H:%M:%S')`. -/
def parse_time_hms (s : String) : Option (Nat × Nat × Nat) :=
  match splitCh ':' s.data with
  | [h, m, sec] =>
      if allDigits h && allDigits m && allDigits sec then
        let hn := natOfDigits h
        let mn := natOfDigits m
        let sn := natOfDigits sec
        if hn ≤ 23 && mn ≤ 59 && sn ≤ 59 then some (hn, mn, sn) else none
      else none
  | _ => none

example : parse_date_iso "2025-01-10" = some (2025, 1, 10) := by decide
example : parse_date_iso "2025-02-30" = none := by decide
example : parse_time_hms "09:00:00" = some (9, 0, 0) := by decide

/-! ## Session store (src/app.py lines 27-47, 313-676)

`user_sessions` is a process-wide dict from user identifier to a mutable
session dict `{state, step, data}`.  The open `data` mapping is modelled as
a record of exactly the keys the endpoint reads or writes. -/

/-- The pinned schedule snapshot (`schedule_info` dict, src/app.py lines
401-409). -/
structure ScheduleInfo where
  id : Nat
  date : String
  start_time : String
  end_time : String
  doctor_name : String
  doctor_specialty : String
  doctor_id : Nat
deriving Repr, DecidableEq

/-- One listed appointment in the cancellation flow (src/app.py lines
561-568). -/
structure ApptInfo where
  id : Nat
  date : String
  time : String
  doctor : String
deriving Repr, DecidableEq

/-- The session `data` accumulator. -/
structure SData where
  selected_schedule : Option ScheduleInfo := none
  schedules : List ScheduleInfo := []
  name : Option String := none
  cpf : Option String := none
  email : Option String := none
  phone : Option String := none
  birth_date : Option String := none
  patientId : Option Nat := none
  appointments : List ApptInfo := []
deriving Repr, DecidableEq

/-- A per-user conversation session. -/
structure Session where
  state : String
  step : Nat
  data : SData
deriving Repr, DecidableEq

/-- `{'state': 'idle', 'data': {}, 'step': 0}`. -/
def freshSession : Session :=
  { state := "idle", step := 0, data := {} }

/-- The process-wide `user_sessions` dict (insertion-ordered, as Python
dicts are). -/
abbrev SMap := List (String × Session)

/-- Dict lookup. -/
def lookupS (m : SMap) (k : String) : Option Session :=
  (List.find? (fun p => p.1 == k) m).map (fun p => p.2)

/-- Dict store (replace in place, else append). -/
def updateS : SMap → String → Session → SMap
  | [], k, v => [(k, v)]
  | p :: rest, k, v =>
      if p.1 == k then (k, v) :: rest else p :: updateS rest k v

/-- `get_user_session` (src/app.py lines 30-38): create the fresh session
on first sight of an identifier, then return the stored session. -/
def get_user_session (m : SMap) (user_id : String) : Session × SMap :=
  match lookupS m user_id with
  | some s => (s, m)
  | none => (freshSession, m ++ [(user_id, freshSession)])

/-- `reset_user_session` (src/app.py lines 40-47): reset to the fresh
session, but only when the identifier is already present. -/
def reset_user_session (m : SMap) (user_id : String) : SMap :=
  if (lookupS m user_id).isSome then updateS m user_id freshSession else m

/-- `user_id` normalization (src/app.py lines 341-344): trim, collapse
blank/"anonymous"/"null"/"undefined" to `default_user`. -/
def normalize_user_id (user_id : String) : String :=
  let s := String.mk (trimWs user_id.data)
  if s == "" || s == "anonymous" || s == "null" || s == "undefined" then
    "default_user"
  else s

/-- The structured reply, projected to the fields the claims speak about:
the `action_taken` tag and the explicit `success` flag (present only on
the replies that set one). -/
structure Response where
  action_taken : String
  success : Option Bool
deriving Repr, DecidableEq

/-- A reply carrying only its action tag. -/
def mkResp (a : String) : Response :=
  { action_taken := a, success := none }

/-- The turn-boundary apology reply (src/app.py lines 668-676). -/
def errorResp : Response :=
  { action_taken := "error_occurred", success := some false }

/-- Early 400 replies (missing message / user id). -/
def messageRequiredResp : Response := mkResp "message_required"

/-- Early 400 reply for a missing user id. -/
def userIdRequiredResp : Response := mkResp "user_id_required"

/-! ## Booking finalizer (`complete_appointment_booking`,
src/app.py lines 1051-1142) -/

/-- Storage-collaborator fault points inside the finalizer's mutation
sequence (the storage interface of spec section 6 may fail at any call). -/
inductive Fault where
  | atPatientUpsert
  | atAppointmentInsert
  | atScheduleFlip
  | atCommit
deriving Repr, DecidableEq

/-- Patient upsert by CPF (src/app.py lines 1066-1078): update the first
matching row in place, else insert a new row whose id comes from
`db.flush()`. -/
def upsertPatient (db : DB) (nm c em ph bd : String) : PatientRow × DB :=
  match List.find? (fun p => p.cpf == c) db.patients with
  | some p =>
      let p' : PatientRow :=
        { id := p.id, name := nm, cpf := c, email := em, phone := ph,
          birth_date := bd }
      (p', { db with
               patients := db.patients.map
                 (fun q => if q.id == p.id then p' else q) })
  | none =>
      let p' : PatientRow :=
        { id := db.nextPatientId, name := nm, cpf := c, email := em,
          phone := ph, birth_date := bd }
      (p', { db with patients := db.patients ++ [p'],
                     nextPatientId := db.nextPatientId + 1 })

/-- `complete_appointment_booking` (src/app.py lines 1051-1142): upsert the
patient, insert the appointment, flip the pinned slot's availability flag,
then commit — all inside one `try` whose `except` resets the session and
returns the `booking_error` reply, leaving the stored state untouched
(the SQLAlchemy session is discarded before any commit).  Missing session
data keys raise `KeyError`; a missing schedule row raises
`AttributeError`; malformed dates raise `ValueError`; all land in the same
`except`.  Note: the slot's `is_available` flag is never re-checked before
the flip. -/
def complete_appointment_booking (sessions : SMap) (user_id : String)
    (session : Session) (db : DB) (fault : Option Fault) :
    SMap × DB × Response :=
  let failRes := (reset_user_session sessions user_id, db, mkResp "booking_error")
  match session.data.name, session.data.cpf, session.data.email,
      session.data.phone, session.data.birth_date,
      session.data.selected_schedule with
  | some nm, some c, some em, some ph, some bd, some sel =>
      match parse_date_iso bd with
      | none => failRes
      | some _ =>
          if fault == some Fault.atPatientUpsert then failRes
          else
            let pu := upsertPatient db nm c em ph bd
            match parse_date_iso sel.date, parse_time_hms sel.start_time with
            | some _, some _ =>
                if fault == some Fault.atAppointmentInsert then failRes
                else
                  let appt : AppointmentRow :=
                    { id := pu.2.nextAppointmentId, patient_id := pu.1.id,
                      doctor_id := sel.doctor_id,
                      appointment_date := sel.date,
                      appointment_time := sel.start_time,
                      status := "scheduled" }
                  let draft2 :=
                    { pu.2 with
                        appointments := pu.2.appointments ++ [appt],
                        nextAppointmentId := pu.2.nextAppointmentId + 1 }
                  if fault == some Fault.atScheduleFlip then failRes
                  else
                    match List.find? (fun r => r.id == sel.id)
                        draft2.schedules with
                    | none => failRes
                    | some _ =>
                        let draft3 :=
                          { draft2 with
                              schedules := draft2.schedules.map
                                (fun r =>
                                  if r.id == sel.id then
                                    { r with is_available := "false" }
                                  else r) }
                        if fault == some Fault.atCommit then failRes
                        else
                          (reset_user_session sessions user_id, draft3,
                           mkResp "appointment_booked")
            | _, _ => failRes
  | _, _, _, _, _, _ => failRes

/-! ## The conversation engine (`ai_agent_endpoint`,
src/app.py lines 313-676)

The endpoint is deterministic in (sessions, db, user_id, message) apart
from storage-collaborator faults inside the finalizer, which are passed as
an explicit fault parameter.  Code paths that raise — the
`apt.schedule` attribute accesses, since the `Appointment` model defines
no `schedule` relationship — are `Except.error` values carrying the
session map and stored state as they are at the raise point (partial dict
mutations persist; uncommitted row drafts do not); the turn boundary's
`except` clause turns them into the apology reply after resetting the
**raw** user id. -/

/-- The `Schedule × Doctor` join filtered to available slots, optionally by
doctor-name `ilike` and by exact date (src/app.py lines 387-396). -/
def query_available (db : DB) (doctorName : Option String)
    (prefDate : Option String) : List (ScheduleRow × DoctorRow) :=
  (db.schedules.filter
      (fun s => s.is_available == "true" &&
        (match prefDate with | some d => s.date == d | none => true))).filterMap
    (fun s =>
      (List.find? (fun d => d.id == s.doctor_id) db.doctors).bind
        (fun d =>
          if (match doctorName with
              | some n => containsCI d.name n
              | none => true) then some (s, d) else none))

/-- The pinned snapshot built from a join row (src/app.py lines 401-409). -/
def mkScheduleInfo (s : ScheduleRow) (d : DoctorRow) : ScheduleInfo :=
  { id := s.id, date := s.date, start_time := s.start_time,
    end_time := s.end_time, doctor_name := d.name,
    doctor_specialty := d.specialty, doctor_id := d.id }

/-- `get_step_message` (src/app.py lines 1019-1049): the re-prompt for the
current registration step (step 1 is the default). -/
def get_step_message (step : Nat) : Response :=
  if step == 2 then mkResp "awaiting_cpf"
  else if step == 3 then mkResp "awaiting_email"
  else if step == 4 then mkResp "awaiting_phone"
  else if step == 5 then mkResp "awaiting_birth_date"
  else mkResp "awaiting_name"

/-- `for key, value in user_data.items(): session['data'][key] = value` —
only the extracted keys overwrite. -/
def mergeData (d : SData) (ud : UserData) : SData :=
  { d with
      name := match ud.name with | some v => some v | none => d.name,
      cpf := match ud.cpf with | some v => some v | none => d.cpf,
      email := match ud.email with | some v => some v | none => d.email,
      phone := match ud.phone with | some v => some v | none => d.phone,
      birth_date :=
        match ud.birth_date with | some v => some v | none => d.birth_date }

/-- The `idle` branch (src/app.py lines 362-455). -/
def handle_idle (sessions1 : SMap) (db : DB) (norm : String)
    (message : String) (session : Session) : SMap × DB × Response :=
  match analyze_intent message with
  | Intent.greeting => (sessions1, db, mkResp "greeting")
  | Intent.payment_info => (sessions1, db, mkResp "payment_info_provided")
  | Intent.schedule_request =>
      -- get_available_schedules_summary only shapes the reply text (and
      -- read-through caches it); the session and stored tables are
      -- untouched
      (sessions1, db, mkResp "show_available_schedules")
  | Intent.book_appointment =>
      let dn := extract_doctor_name_from_message message
      let pd := extract_date_from_message message
      if dn.isSome || pd.isSome then
        match query_available db dn pd with
        | [] => (sessions1, db, mkResp "no_schedules_found")
        | sd :: _ =>
            let info := mkScheduleInfo sd.1 sd.2
            let session' :=
              { session with
                  state := "registering_patient", step := 1,
                  data := { session.data with selected_schedule := some info } }
            (updateS sessions1 norm session', db, mkResp "schedule_selected")
      else (sessions1, db, mkResp "show_availability")
  | Intent.cancel_appointment =>
      let session' := { session with state := "cancelling_appointment", step := 1 }
      (updateS sessions1 norm session', db, mkResp "cancel_flow_started")
  | Intent.number_selection => (sessions1, db, mkResp "number_without_context")
  | _ => (sessions1, db, mkResp "greeting")

/-- The `selecting_schedule` branch (src/app.py lines 457-491).  The
1-based index is validated against the pending list before any access
(`if selected_number and 1 <= selected_number <= len(schedules)`), so the
valid branch's list access is in bounds by construction. -/
def handle_selecting (sessions1 : SMap) (db : DB) (norm : String)
    (message : String) (session : Session) : SMap × DB × Response :=
  match analyze_intent message with
  | Intent.number_selection =>
      let schedules := session.data.schedules
      match extract_number_from_message message with
      | some n =>
          if h : n ≠ 0 ∧ 1 ≤ n ∧ n ≤ schedules.length then
            let sel := schedules.get ⟨n - 1, by omega⟩
            let session' :=
              { session with
                  state := "registering_patient", step := 1,
                  data := { session.data with selected_schedule := some sel } }
            (updateS sessions1 norm session', db, mkResp "schedule_selected")
          else (sessions1, db, mkResp "invalid_selection")
      | none => (sessions1, db, mkResp "invalid_selection")
  | _ => (sessions1, db, mkResp "awaiting_selection")

/-- The `registering_patient` branch (src/app.py lines 493-539): merge the
extracted fields into the session data, then advance the step whose
expected field arrived; step 5 with a birth date hands over to the
finalizer. -/
def handle_registering (sessions1 : SMap) (db : DB) (norm user_id : String)
    (message : String) (session : Session) (fault : Option Fault) :
    SMap × DB × Response :=
  match analyze_intent message with
  | Intent.user_data =>
      let ud := extract_user_data message
      let session1 := { session with data := mergeData session.data ud }
      let sessionsM := updateS sessions1 norm session1
      if session.step == 1 && ud.name.isSome then
        (updateS sessionsM norm { session1 with step := 2 }, db,
         mkResp "name_collected")
      else if session.step == 2 && ud.cpf.isSome then
        (updateS sessionsM norm { session1 with step := 3 }, db,
         mkResp "cpf_collected")
      else if session.step == 3 && ud.email.isSome then
        (updateS sessionsM norm { session1 with step := 4 }, db,
         mkResp "email_collected")
      else if session.step == 4 && ud.phone.isSome then
        (updateS sessionsM norm { session1 with step := 5 }, db,
         mkResp "phone_collected")
      else if session.step == 5 && ud.birth_date.isSome then
        complete_appointment_booking sessionsM user_id session1 db fault
      else (sessionsM, db, get_step_message session.step)
  | _ => (sessions1, db, get_step_message session.step)

/-- The `cancelling_appointment` branch (src/app.py lines 541-659).
Both database-touching paths reach `apt.schedule` / `appointment.schedule`
— an attribute the `Appointment` model does not define — and raise
`AttributeError` there; in step 1 the `session['data']['patient']`
assignment has already happened, in step 2 the drafted status change is
discarded with the uncommitted transaction. -/
def handle_cancelling (sessions1 : SMap) (db : DB) (norm user_id : String)
    (message : String) (session : Session) :
    Except (SMap × DB) (SMap × DB × Response) :=
  let intent := analyze_intent message
  if intent == Intent.user_data && session.step == 1 then
    let ud := extract_user_data message
    match ud.name with
    | some nm =>
        match List.find? (fun p => containsCI p.name nm) db.patients with
        | some p =>
            let appts := db.appointments.filter
              (fun a => a.patient_id == p.id && a.status == "scheduled")
            if appts.isEmpty then
              Except.ok (reset_user_session sessions1 user_id, db,
                mkResp "no_appointments")
            else
              let sessionsM := updateS sessions1 norm
                { session with
                    data := { session.data with patientId := some p.id } }
              Except.error (sessionsM, db)
        | none =>
            Except.ok (reset_user_session sessions1 user_id, db,
              mkResp "patient_not_found")
    | none => Except.ok (sessions1, db, mkResp "awaiting_name")
  else if intent == Intent.number_selection && session.step == 2 then
    let appointments := session.data.appointments
    match extract_number_from_message message with
    | some n =>
        if h : n ≠ 0 ∧ 1 ≤ n ∧ n ≤ appointments.length then
          let sel := appointments.get ⟨n - 1, by omega⟩
          match List.find? (fun a => a.id == sel.id) db.appointments with
          | some _ => Except.error (sessions1, db)
          | none =>
              Except.ok (reset_user_session sessions1 user_id, db,
                mkResp "cancellation_error")
        else Except.ok (sessions1, db, mkResp "invalid_selection")
    | none => Except.ok (sessions1, db, mkResp "invalid_selection")
  else Except.ok (sessions1, db, mkResp "awaiting_input")

/-- `ai_agent_endpoint` (src/app.py lines 313-676): validate the request,
normalize the user id, fetch (or create) the session stored under the
normalized id, dispatch on the session state, and catch any exception at
the turn boundary — resetting the session keyed by the *raw* `user_id`
and returning the apology reply. -/
def ai_agent_endpoint (sessions : SMap) (db : DB) (user_id message : String)
    (fault : Option Fault) : SMap × DB × Response :=
  if message == "" then (sessions, db, messageRequiredResp)
  else if user_id == "" then (sessions, db, userIdRequiredResp)
  else
    let norm := normalize_user_id user_id
    let gs := get_user_session sessions norm
    let session := gs.1
    let sessions1 := gs.2
    let inner : Except (SMap × DB) (SMap × DB × Response) :=
      if session.state == "idle" then
        Except.ok (handle_idle sessions1 db norm message session)
      else if session.state == "selecting_schedule" then
        Except.ok (handle_selecting sessions1 db norm message session)
      else if session.state == "registering_patient" then
        Except.ok (handle_registering sessions1 db norm user_id message
          session fault)
      else if session.state == "cancelling_appointment" then
        handle_cancelling sessions1 db norm user_id message session
      else
        Except.ok (reset_user_session sessions1 user_id, db, mkResp "greeting")
    match inner with
    | Except.ok r => r
    | Except.error sd => (reset_user_session sd.1 user_id, sd.2, errorResp)

/-! # Theorems for the claims -/

/-! ## Finalizer outcome lemmas (shared helpers) -/

/-- Every run of the finalizer either fails — resetting the session keyed
by the given identifier, leaving the stored state untouched and returning
`booking_error` — or succeeds with `appointment_booked`. -/
theorem cab_outcomes (sessions : SMap) (uid : String) (session : Session)
    (db : DB) (fault : Option Fault) :
    complete_appointment_booking sessions uid session db fault =
      (reset_user_session sessions uid, db, mkResp "booking_error") ∨
    ∃ draft, complete_appointment_booking sessions uid session db fault =
      (reset_user_session sessions uid, draft, mkResp "appointment_booked") := by
  unfold complete_appointment_booking
  dsimp only
  repeat' split
  all_goals first
    | (left; rfl)
    | (right; exact ⟨_, rfl⟩)

/-- The upsert never touches the schedule table. -/
theorem upsertPatient_schedules (db : DB) (nm c em ph bd : String) :
    (upsertPatient db nm c em ph bd).2.schedules = db.schedules := by
  unfold upsertPatient
  split <;> rfl

/-- The upsert never touches the appointment table. -/
theorem upsertPatient_appointments (db : DB) (nm c em ph bd : String) :
    (upsertPatient db nm c em ph bd).2.appointments = db.appointments := by
  unfold upsertPatient
  split <;> rfl

/-- The upsert never touches the doctor table. -/
theorem upsertPatient_doctors (db : DB) (nm c em ph bd : String) :
    (upsertPatient db nm c em ph bd).2.doctors = db.doctors := by
  unfold upsertPatient
  split <;> rfl

/-- The upsert does not consume appointment ids. -/
theorem upsertPatient_nextAppointmentId (db : DB) (nm c em ph bd : String) :
    (upsertPatient db nm c em ph bd).2.nextAppointmentId =
      db.nextAppointmentId := by
  unfold upsertPatient
  split <;> rfl

/-- The exact successful run of the finalizer: with complete session data,
parseable dates, no storage fault and the pinned slot present, the
finalizer commits the upserted patient, the new appointment row and the
flipped slot in one step and resets the session. -/
theorem cab_success (sessions : SMap) (uid : String) (session : Session)
    (db : DB) (nm c em ph bd : String) (sel : ScheduleInfo)
    (hn : session.data.name = some nm) (hc : session.data.cpf = some c)
    (he : session.data.email = some em) (hp : session.data.phone = some ph)
    (hb : session.data.birth_date = some bd)
    (hs : session.data.selected_schedule = some sel)
    (hbd : (parse_date_iso bd).isSome = true)
    (hd : (parse_date_iso sel.date).isSome = true)
    (ht : (parse_time_hms sel.start_time).isSome = true)
    (hfind : (List.find? (fun r => r.id == sel.id) db.schedules).isSome = true) :
    complete_appointment_booking sessions uid session db none =
      (reset_user_session sessions uid,
       { patients := (upsertPatient db nm c em ph bd).2.patients,
         doctors := db.doctors,
         appointments := db.appointments ++
           [{ id := db.nextAppointmentId,
              patient_id := (upsertPatient db nm c em ph bd).1.id,
              doctor_id := sel.doctor_id,
              appointment_date := sel.date,
              appointment_time := sel.start_time,
              status := "scheduled" }],
         schedules := db.schedules.map
           (fun r => if r.id == sel.id then { r with is_available := "false" }
                     else r),
         nextPatientId := (upsertPatient db nm c em ph bd).2.nextPatientId,
         nextAppointmentId := db.nextAppointmentId + 1 },
       mkResp "appointment_booked") := by
  obtain ⟨vbd, hvbd⟩ := Option.isSome_iff_exists.mp hbd
  obtain ⟨vd, hvd⟩ := Option.isSome_iff_exists.mp hd
  obtain ⟨vt, hvt⟩ := Option.isSome_iff_exists.mp ht
  obtain ⟨vf, hvf⟩ := Option.isSome_iff_exists.mp hfind
  unfold complete_appointment_booking
  simp only [hn, hc, he, hp, hb, hs, hvbd, hvd, hvt]
  simp [upsertPatient_schedules, upsertPatient_appointments,
    upsertPatient_doctors, upsertPatient_nextAppointmentId, hvf]

/-- `find?` skips a prefix with no hit. -/
theorem find?_append_of_none {α : Type} (p : α → Bool) (l1 l2 : List α)
    (h : List.find? p l1 = none) :
    List.find? p (l1 ++ l2) = List.find? p l2 := by
  induction l1 with
  | nil => rfl
  | cons a t ih =>
      simp only [List.find?] at h ⊢
      cases hp : p a with
      | true => rw [hp] at h; exact absurd h (by simp)
      | false =>
          rw [hp] at h
          simpa using ih h

/-- An in-place update at an id absent from the list is the identity. -/
theorem map_update_id_not_mem (l : List PatientRow) (i : Nat)
    (x : PatientRow) (h : ∀ q ∈ l, q.id ≠ i) :
    l.map (fun q => if q.id == i then x else q) = l := by
  induction l with
  | nil => rfl
  | cons a t ih =>
      have ha : a.id ≠ i := h a (by simp)
      simp only [List.map_cons, List.cons.injEq]
      refine ⟨by simp [ha], ih (fun q hq => h q (by simp [hq]))⟩

/-- Flipping a slot's availability flag preserves whether its id can be
found. -/
theorem find?_flip_isSome (l : List ScheduleRow) (i : Nat) :
    (List.find? (fun r => r.id == i)
        (l.map (fun r => if r.id == i then { r with is_available := "false" }
                         else r))).isSome =
      (List.find? (fun r => r.id == i) l).isSome := by
  induction l with
  | nil => rfl
  | cons a t ih =>
      simp only [List.map_cons, List.find?]
      by_cases ha : a.id = i
      · simp [ha]
      · have hhead : (if (a.id == i) = true then
            { a with is_available := "false" } else a) = a := by simp [ha]
        rw [hhead]
        have ha' : (a.id == i) = false := by simp [ha]
        rw [ha']
        exact ih

/-! ## C2 — atomic rollback of a failed finalization -/

/-- C2: for every registration session at step 5 whose finalization run
fails (returns the `booking_error` reply), the stored state is exactly the
pre-run state — the drafted patient upsert, appointment insert and slot
flip are all discarded with the uncommitted transaction, so no appointment
row can exist without its slot flip or vice versa — and the session keyed
by the identifier given to the finalizer is reset. -/
theorem c2_failed_finalization_rolls_back (sessions : SMap) (uid : String)
    (session : Session) (db : DB) (fault : Option Fault)
    (_hstate : session.state = "registering_patient")
    (_hstep : session.step = 5)
    (hfail : (complete_appointment_booking sessions uid session db fault).2.2 =
      mkResp "booking_error") :
    complete_appointment_booking sessions uid session db fault =
      (reset_user_session sessions uid, db, mkResp "booking_error") := by
  rcases cab_outcomes sessions uid session db fault with h | ⟨draft, h⟩
  · exact h
  · rw [h] at hfail
    simp [mkResp] at hfail

/-- Fixture: a step-5 registration session with complete data. -/
def sessC2 : Session :=
  { state := "registering_patient", step := 5,
    data := { selected_schedule :=
                some { id := 1, date := "2025-01-10",
                       start_time := "09:00:00", end_time := "10:00:00",
                       doctor_name := "João Silva",
                       doctor_specialty := "Cardiologia", doctor_id := 1 },
              name := some "Ana Souza", cpf := some "123.456.789-01",
              email := some "ana@mail.com", phone := some "(11) 91234-5678",
              birth_date := some "1990-05-20" } }

/-- Fixture: a store holding the pinned available slot. -/
def dbC2 : DB :=
  { patients := [], doctors := [⟨1, "João Silva", "Cardiologia"⟩],
    appointments := [],
    schedules := [⟨1, 1, "2025-01-10", "09:00:00", "10:00:00", "true"⟩],
    nextPatientId := 1, nextAppointmentId := 1 }

/-- C2 witness: a storage fault at the commit, after every write was
drafted — the run ends with the store untouched, the session reset and the
`booking_error` reply. -/
theorem c2_failed_finalization_rolls_back_witness :
    complete_appointment_booking [("u1", sessC2)] "u1" sessC2 dbC2
        (some Fault.atCommit) =
      ([("u1", freshSession)], dbC2, mkResp "booking_error") := by
  have h := c2_failed_finalization_rolls_back [("u1", sessC2)] "u1" sessC2
    dbC2 (some Fault.atCommit) rfl rfl (by decide)
  exact h.trans (by decide)

/-! ## C4 — no availability re-check at finalize time -/

/-- Fixture: the pinned slot's availability flag has already been flipped
to `"false"` (e.g. by a concurrent booking) before finalization. -/
def dbC4 : DB :=
  { patients := [], doctors := [⟨1, "João Silva", "Cardiologia"⟩],
    appointments := [],
    schedules := [⟨1, 1, "2025-01-10", "09:00:00", "10:00:00", "false"⟩],
    nextPatientId := 1, nextAppointmentId := 1 }

/-- Fixture: a completed registration session pinning that slot. -/
def sessC4 : Session :=
  { state := "registering_patient", step := 5,
    data := { selected_schedule :=
                some { id := 1, date := "2025-01-10",
                       start_time := "09:00:00", end_time := "10:00:00",
                       doctor_name := "João Silva",
                       doctor_specialty := "Cardiologia", doctor_id := 1 },
              name := some "Ana Souza", cpf := some "123.456.789-01",
              email := some "ana@mail.com", phone := some "(11) 91234-5678",
              birth_date := some "1990-05-20" } }

/-- C4 (the code at the claim's failing input): the finalizer queries the
pinned slot by id only and never re-checks `is_available`; with the flag
already `"false"` it still inserts a scheduled appointment from the stale
snapshot and reports success, instead of failing gracefully. -/
theorem c4_finalizer_books_unavailable_slot :
    (dbC4.schedules.map (fun r => r.is_available) = ["false"]) ∧
    (complete_appointment_booking [("u1", sessC4)] "u1" sessC4 dbC4
        none).2.2 = mkResp "appointment_booked" ∧
    ((complete_appointment_booking [("u1", sessC4)] "u1" sessC4 dbC4
        none).2.1.appointments.map (fun a => a.status)) = ["scheduled"] := by
  refine ⟨by decide, by decide, by decide⟩

/-! ## C9 — patient upsert idempotence on CPF -/

/-- C9: submitting the same completed registration twice with the same
CPF is idempotent on the patient table: the first successful finalization
inserts one patient row; the second finds it by CPF and updates its fields
in place, adding no row. -/
theorem c9_second_finalization_updates_in_place
    (s1 s2 : SMap) (uid1 uid2 : String) (sess : Session) (db0 : DB)
    (nm c em ph bd : String) (sel : ScheduleInfo)
    (hn : sess.data.name = some nm) (hc : sess.data.cpf = some c)
    (he : sess.data.email = some em) (hp : sess.data.phone = some ph)
    (hb : sess.data.birth_date = some bd)
    (hs : sess.data.selected_schedule = some sel)
    (hbd : (parse_date_iso bd).isSome = true)
    (hd : (parse_date_iso sel.date).isSome = true)
    (ht : (parse_time_hms sel.start_time).isSome = true)
    (hfind : (List.find? (fun r => r.id == sel.id) db0.schedules).isSome = true)
    (hnone : List.find? (fun p => p.cpf == c) db0.patients = none)
    (hid : ∀ q ∈ db0.patients, q.id ≠ db0.nextPatientId) :
    (complete_appointment_booking s1 uid1 sess db0 none).2.2 =
      mkResp "appointment_booked" ∧
    (complete_appointment_booking s1 uid1 sess db0 none).2.1.patients =
      db0.patients ++
        [{ id := db0.nextPatientId, name := nm, cpf := c, email := em,
           phone := ph, birth_date := bd }] ∧
    (complete_appointment_booking s2 uid2 sess
        (complete_appointment_booking s1 uid1 sess db0 none).2.1 none).2.2 =
      mkResp "appointment_booked" ∧
    (complete_appointment_booking s2 uid2 sess
        (complete_appointment_booking s1 uid1 sess db0 none).2.1
        none).2.1.patients =
      (complete_appointment_booking s1 uid1 sess db0 none).2.1.patients := by
  have hup1 : upsertPatient db0 nm c em ph bd =
      ({ id := db0.nextPatientId, name := nm, cpf := c, email := em,
         phone := ph, birth_date := bd },
       { db0 with
           patients := db0.patients ++
             [{ id := db0.nextPatientId, name := nm, cpf := c, email := em,
                phone := ph, birth_date := bd }],
           nextPatientId := db0.nextPatientId + 1 }) := by
    unfold upsertPatient
    rw [hnone]
  have h1 := cab_success s1 uid1 sess db0 nm c em ph bd sel hn hc he hp hb hs
    hbd hd ht hfind
  have hp1 : (complete_appointment_booking s1 uid1 sess db0 none).2.1.patients =
      db0.patients ++
        [{ id := db0.nextPatientId, name := nm, cpf := c, email := em,
           phone := ph, birth_date := bd }] := by
    rw [h1]
    dsimp only
    rw [hup1]
  have hr1 : (complete_appointment_booking s1 uid1 sess db0 none).2.2 =
      mkResp "appointment_booked" := by
    rw [h1]
  have hs1 : (complete_appointment_booking s1 uid1 sess db0 none).2.1.schedules =
      db0.schedules.map
        (fun r => if r.id == sel.id then { r with is_available := "false" }
                  else r) := by
    rw [h1]
  have hfind2 : (List.find? (fun r => r.id == sel.id)
      (complete_appointment_booking s1 uid1 sess db0 none).2.1.schedules).isSome =
      true := by
    rw [hs1, find?_flip_isSome]
    exact hfind
  have h2 := cab_success s2 uid2 sess
    (complete_appointment_booking s1 uid1 sess db0 none).2.1 nm c em ph bd sel
    hn hc he hp hb hs hbd hd ht hfind2
  have hr2 : (complete_appointment_booking s2 uid2 sess
      (complete_appointment_booking s1 uid1 sess db0 none).2.1 none).2.2 =
      mkResp "appointment_booked" := by
    rw [h2]
  have hfindc : List.find? (fun p => p.cpf == c)
      (complete_appointment_booking s1 uid1 sess db0 none).2.1.patients =
      some { id := db0.nextPatientId, name := nm, cpf := c, email := em,
             phone := ph, birth_date := bd } := by
    rw [hp1, find?_append_of_none _ _ _ hnone]
    simp [List.find?]
  have hup2 : (upsertPatient
      (complete_appointment_booking s1 uid1 sess db0 none).2.1
      nm c em ph bd).2.patients =
      (complete_appointment_booking s1 uid1 sess db0 none).2.1.patients := by
    unfold upsertPatient
    rw [hfindc]
    dsimp only
    rw [hp1, List.map_append,
      map_update_id_not_mem db0.patients db0.nextPatientId _ hid]
    simp
  have hp2 : (complete_appointment_booking s2 uid2 sess
      (complete_appointment_booking s1 uid1 sess db0 none).2.1
      none).2.1.patients =
      (upsertPatient (complete_appointment_booking s1 uid1 sess db0 none).2.1
        nm c em ph bd).2.patients := by
    rw [h2]
  exact ⟨hr1, hp1, hr2, hp2.trans hup2⟩

/-- Fixture: a clean store for the idempotence witness. -/
def dbC9 : DB :=
  { patients := [], doctors := [⟨1, "João Silva", "Cardiologia"⟩],
    appointments := [],
    schedules := [⟨1, 1, "2025-01-10", "09:00:00", "10:00:00", "true"⟩],
    nextPatientId := 1, nextAppointmentId := 1 }

/-- Fixture: a completed registration session for the idempotence
witness. -/
def sessC9 : Session :=
  { state := "registering_patient", step := 5,
    data := { selected_schedule :=
                some { id := 1, date := "2025-01-10",
                       start_time := "09:00:00", end_time := "10:00:00",
                       doctor_name := "João Silva",
                       doctor_specialty := "Cardiologia", doctor_id := 1 },
              name := some "Ana Souza", cpf := some "123.456.789-01",
              email := some "ana@mail.com", phone := some "(11) 91234-5678",
              birth_date := some "1990-05-20" } }

/-- C9 witness: the same registration finalized twice against a clean
store — one patient row after each run, updated in place the second
time. -/
theorem c9_second_finalization_updates_in_place_witness :
    (complete_appointment_booking [] "u1" sessC9 dbC9 none).2.2 =
      mkResp "appointment_booked" ∧
    (complete_appointment_booking [] "u1" sessC9 dbC9 none).2.1.patients =
      dbC9.patients ++
        [{ id := dbC9.nextPatientId, name := "Ana Souza",
           cpf := "123.456.789-01", email := "ana@mail.com",
           phone := "(11) 91234-5678", birth_date := "1990-05-20" }] ∧
    (complete_appointment_booking [] "u2" sessC9
        (complete_appointment_booking [] "u1" sessC9 dbC9 none).2.1 none).2.2 =
      mkResp "appointment_booked" ∧
    (complete_appointment_booking [] "u2" sessC9
        (complete_appointment_booking [] "u1" sessC9 dbC9 none).2.1
        none).2.1.patients =
      (complete_appointment_booking [] "u1" sessC9 dbC9 none).2.1.patients :=
  c9_second_finalization_updates_in_place [] [] "u1" "u2" sessC9 dbC9
    "Ana Souza" "123.456.789-01" "ana@mail.com" "(11) 91234-5678"
    "1990-05-20"
    { id := 1, date := "2025-01-10", start_time := "09:00:00",
      end_time := "10:00:00", doctor_name := "João Silva",
      doctor_specialty := "Cardiologia", doctor_id := 1 }
    rfl rfl rfl rfl rfl rfl (by decide) (by decide) (by decide) (by decide)
    rfl (by simp [dbC9])

/-! ## C5 — out-of-range selection numbers re-prompt without state change -/

/-- Fetching a stored session leaves the map unchanged. -/
theorem get_user_session_of_lookup (m : SMap) (k : String) (s : Session)
    (h : lookupS m k = some s) : get_user_session m k = (s, m) := by
  unfold get_user_session
  rw [h]

/-- C5: in both pending-list states — `selecting_schedule`, and
`cancelling_appointment` at step 2 — a `number_selection` message whose
extracted number is 0 or exceeds the pending list's length (in particular
any number against an empty list) yields the `invalid_selection` re-prompt
and leaves the session map and the stored state exactly unchanged; the
guarded 1-based access can therefore never index out of bounds.  Negative
numbers cannot be produced by `extract_number_from_message` at all (its
digit pattern and word table are non-negative). -/
theorem c5_out_of_range_selection_reprompts :
    (∀ (sessions : SMap) (db : DB) (uid msg : String) (s : Session) (n : Nat)
       (fault : Option Fault),
       uid ≠ "" →
       lookupS sessions (normalize_user_id uid) = some s →
       s.state = "selecting_schedule" →
       analyze_intent msg = Intent.number_selection →
       extract_number_from_message msg = some n →
       (n = 0 ∨ s.data.schedules.length < n) →
       ai_agent_endpoint sessions db uid msg fault =
         (sessions, db, mkResp "invalid_selection")) ∧
    (∀ (sessions : SMap) (db : DB) (uid msg : String) (s : Session) (n : Nat)
       (fault : Option Fault),
       uid ≠ "" →
       lookupS sessions (normalize_user_id uid) = some s →
       s.state = "cancelling_appointment" →
       s.step = 2 →
       analyze_intent msg = Intent.number_selection →
       extract_number_from_message msg = some n →
       (n = 0 ∨ s.data.appointments.length < n) →
       ai_agent_endpoint sessions db uid msg fault =
         (sessions, db, mkResp "invalid_selection")) := by
  constructor
  · intro sessions db uid msg s n fault huid hlook hstate hint hnum hbad
    have hmsg : ¬ (msg = "") := by
      intro he
      rw [he] at hint
      exact absurd hint (by decide)
    have hcond : ¬ (n ≠ 0 ∧ 1 ≤ n ∧ n ≤ s.data.schedules.length) := by
      rcases hbad with h0 | hgt <;> omega
    unfold ai_agent_endpoint handle_selecting
    dsimp only
    rw [get_user_session_of_lookup _ _ _ hlook]
    simp only [beq_iff_eq, if_neg hmsg, if_neg huid]
    simp [hstate, hint, hnum, dif_neg hcond]
  · intro sessions db uid msg s n fault huid hlook hstate hstep hint hnum hbad
    have hmsg : ¬ (msg = "") := by
      intro he
      rw [he] at hint
      exact absurd hint (by decide)
    have hcond : ¬ (n ≠ 0 ∧ 1 ≤ n ∧ n ≤ s.data.appointments.length) := by
      rcases hbad with h0 | hgt <;> omega
    unfold ai_agent_endpoint handle_cancelling
    dsimp only
    rw [get_user_session_of_lookup _ _ _ hlook]
    simp only [beq_iff_eq, if_neg hmsg, if_neg huid]
    simp [hstate, hstep, hint, hnum, dif_neg hcond]

/-- C5 witness: a session whose pending schedule list is empty re-prompts
on "1", and a cancellation session with one listed appointment re-prompts
on "2"; neither touches the session map or the stored state. -/
theorem c5_out_of_range_selection_reprompts_witness :
    ai_agent_endpoint [("u1", ⟨"selecting_schedule", 1, {}⟩)]
        { patients := [], doctors := [], appointments := [], schedules := [],
          nextPatientId := 1, nextAppointmentId := 1 } "u1" "1" none =
      ([("u1", ⟨"selecting_schedule", 1, {}⟩)],
       { patients := [], doctors := [], appointments := [], schedules := [],
         nextPatientId := 1, nextAppointmentId := 1 },
       mkResp "invalid_selection") ∧
    ai_agent_endpoint
        [("u2", ⟨"cancelling_appointment", 2,
          { appointments := [⟨5, "2025-01-10", "09:00:00", "João Silva"⟩] }⟩)]
        { patients := [], doctors := [], appointments := [], schedules := [],
          nextPatientId := 1, nextAppointmentId := 1 } "u2" "2" none =
      ([("u2", ⟨"cancelling_appointment", 2,
         { appointments := [⟨5, "2025-01-10", "09:00:00", "João Silva"⟩] }⟩)],
       { patients := [], doctors := [], appointments := [], schedules := [],
         nextPatientId := 1, nextAppointmentId := 1 },
       mkResp "invalid_selection") :=
  ⟨c5_out_of_range_selection_reprompts.1 _ _ "u1" "1"
     ⟨"selecting_schedule", 1, {}⟩ 1 none
     (by decide) (by decide) rfl (by decide) (by decide) (Or.inr (by decide)),
   c5_out_of_range_selection_reprompts.2 _ _ "u2" "2"
     ⟨"cancelling_appointment", 2,
      { appointments := [⟨5, "2025-01-10", "09:00:00", "João Silva"⟩] }⟩ 2 none
     (by decide) (by decide) rfl rfl (by decide) (by decide)
     (Or.inr (by decide))⟩

/-! ## C1 — the turn-boundary reset misses the normalized session -/

/-- Fixture: the store for the C1 failing input — the named patient exists
and has a scheduled appointment, so the cancellation lookup succeeds and
the listing then raises `AttributeError` at `apt.schedule`. -/
def dbC1 : DB :=
  { patients := [⟨1, "Maria Silva", "123.456.789-01", "m@x.com",
                  "(11) 98765-4321", "1990-05-20"⟩],
    doctors := [⟨1, "João Silva", "Cardiologia"⟩],
    appointments := [⟨5, 1, 1, "2025-01-10", "09:00:00", "scheduled"⟩],
    schedules := [⟨3, 1, "2025-01-10", "09:00:00", "10:00:00", "false"⟩],
    nextPatientId := 2, nextAppointmentId := 6 }

/-- Fixture: the session stored under the *normalized* identifier
`"alice"`, mid-cancellation. -/
def sessionsC1 : SMap :=
  [("alice", ⟨"cancelling_appointment", 1, {}⟩)]

/-- C1 (the code at the claim's failing input): a request whose raw
`user_id` `"  alice  "` normalizes to `"alice"` — the key the session
lives under — raises during the turn (here at the `apt.schedule` access);
the handler returns the generic apology without re-raising, but
`reset_user_session` is called with the raw id, which is not a key of the
map, so the session stored under `"alice"` is NOT reset: it stays in
`cancelling_appointment` step 1 (with the partial `data.patient` write),
contradicting the claim that the reset reaches the session even when the
raw id differs from the normalized one. -/
theorem c1_error_reset_misses_normalized_session :
    normalize_user_id "  alice  " = "alice" ∧
    ai_agent_endpoint sessionsC1 dbC1 "  alice  " "Maria Silva" none =
      ([("alice", ⟨"cancelling_appointment", 1, { patientId := some 1 }⟩)],
       dbC1, errorResp) ∧
    lookupS (ai_agent_endpoint sessionsC1 dbC1 "  alice  " "Maria Silva"
        none).1 "alice" ≠ some freshSession := by
  refine ⟨by decide, by decide, by decide⟩

/-! ## C3 — the agent cancellation at step 2 aborts instead of
cancelling -/

/-- Fixture: the store for the C3 failing input — appointment 5 is
scheduled and its slot is flagged unavailable. -/
def dbC3 : DB :=
  { patients := [⟨1, "Maria Silva", "123.456.789-01", "m@x.com",
                  "(11) 98765-4321", "1990-05-20"⟩],
    doctors := [⟨1, "João Silva", "Cardiologia"⟩],
    appointments := [⟨5, 1, 1, "2025-01-10", "09:00:00", "scheduled"⟩],
    schedules := [⟨3, 1, "2025-01-10", "09:00:00", "10:00:00", "false"⟩],
    nextPatientId := 2, nextAppointmentId := 6 }

/-- Fixture: a cancellation session at step 2 listing appointment 5. -/
def sessionsC3 : SMap :=
  [("u1", ⟨"cancelling_appointment", 2,
    { appointments := [⟨5, "2025-01-10", "09:00:00", "João Silva"⟩] }⟩)]

/-- C3 (the code at the claim's failing input): a valid 1-based selection
("1") at cancellation step 2 reaches `appointment.schedule` — an attribute
the `Appointment` model does not define — so the turn raises
`AttributeError` before any commit: the appointment's status stays
`"scheduled"`, the slot's flag stays `"false"`, no cache invalidation call
even exists on this path, and the user gets the generic apology (the
session is reset only because here the raw id equals the normalized
one). -/
theorem c3_cancellation_step2_raises_attribute_error :
    ai_agent_endpoint sessionsC3 dbC3 "u1" "1" none =
      ([("u1", freshSession)], dbC3, errorResp) ∧
    dbC3.appointments.map (fun a => a.status) = ["scheduled"] ∧
    dbC3.schedules.map (fun r => r.is_available) = ["false"] := by
  refine ⟨by decide, by decide, by decide⟩

/-! ## C6 — intent priority ordering -/

/-- Some payment pattern matches the message. -/
def payment_matches (message : String) : Bool :=
  matchesAny [paymentAlts] (mlOf message)

/-- Some booking pattern matches the message. -/
def book_matches (message : String) : Bool :=
  matchesAny [bookAlts] (mlOf message)

/-- Some greeting pattern matches the message. -/
def greeting_matches (message : String) : Bool :=
  matchesAny [greetingAlts] (mlOf message)

/-- C6 (counterexample): the claim's universal — every message matching
both a payment and a booking pattern classifies as `payment_info` — fails:
`"olá quero agendar uma consulta quanto custa"` matches a payment pattern
(`quanto custa`) and a booking pattern (`agendar`), yet classifies as
`greeting`, because the greeting group is checked first. -/
theorem c6_priority_counterexample :
    payment_matches "olá quero agendar uma consulta quanto custa" = true ∧
    book_matches "olá quero agendar uma consulta quanto custa" = true ∧
    analyze_intent "olá quero agendar uma consulta quanto custa" =
      Intent.greeting ∧
    analyze_intent "olá quero agendar uma consulta quanto custa" ≠
      Intent.payment_info := by
  refine ⟨by decide, by decide, by decide, by decide⟩

/-- C6 (amended): `analyze_intent` checks the groups in the fixed order
greeting, payment_info, schedule_request, cancel_appointment,
book_appointment, number_selection and returns the first hit.  For a
message matching both a payment and a booking pattern the result is never
`book_appointment`, and it is `payment_info` whenever no (higher-priority)
greeting pattern also matches; in particular
`"quanto custa uma consulta"` classifies as `payment_info`. -/
theorem c6_payment_before_booking :
    (∀ message, payment_matches message = true →
      book_matches message = true →
      greeting_matches message = false →
      analyze_intent message = Intent.payment_info) ∧
    (∀ message, payment_matches message = true →
      book_matches message = true →
      analyze_intent message ≠ Intent.book_appointment) ∧
    analyze_intent "quanto custa uma consulta" = Intent.payment_info := by
  refine ⟨?_, ?_, by decide⟩
  · intro message hp hb hg
    simp only [payment_matches] at hp
    simp only [greeting_matches] at hg
    simp [analyze_intent, hp, hg]
  · intro message hp hb
    simp only [payment_matches] at hp
    unfold analyze_intent
    cases hg : matchesAny [greetingAlts] (mlOf message) <;>
      simp [hp, hg]

/-- C6 witness: a concrete message matching both a payment and a booking
pattern but no greeting pattern, classified `payment_info` by the
theorem. -/
theorem c6_payment_before_booking_witness :
    payment_matches "quero agendar uma consulta quanto custa" = true ∧
    book_matches "quero agendar uma consulta quanto custa" = true ∧
    greeting_matches "quero agendar uma consulta quanto custa" = false ∧
    analyze_intent "quero agendar uma consulta quanto custa" =
      Intent.payment_info :=
  ⟨by decide, by decide, by decide,
   c6_payment_before_booking.1 "quero agendar uma consulta quanto custa"
     (by decide) (by decide) (by decide)⟩

/-! ## C7 — cache round-trip -/

/-- C7 (counterexample): `get` after `set` does not return the slot list
that was set — it returns the whole stored wrapper object
(`json.loads` of the cached payload), not the list.  Callers must unwrap
its `schedules` field. -/
theorem c7_roundtrip_counterexample :
    CacheService.get_available_schedules
        (CacheService.set_available_schedules (some []) 0 [Json.str "slot"]
          none none 300).2 0 none none ≠
      some (Json.arr [Json.str "slot"]) := by
  intro h
  have h' : CacheService.cachePayload 0 [Json.str "slot"] =
      Json.arr [Json.str "slot"] := Option.some.inj h
  exact Json.noConfusion h'

/-- C7 (amended): for every store, clock, (date, doctorId) pair, schedule
list and positive TTL, `set` followed immediately by `get` with the same
parameters returns the stored wrapper object whose `schedules` field is
exactly the list that was set (plus the cache timestamp and count). -/
theorem c7_set_get_roundtrip (st : RedisStore) (now : Nat)
    (date : Option String) (doctor_id : Option Nat) (schedules : List Json)
    (ttl : Nat) (httl : 0 < ttl) :
    CacheService.get_available_schedules
        (CacheService.set_available_schedules (some st) now schedules date
          doctor_id ttl).2 now date doctor_id =
      some (Json.obj [("schedules", Json.arr schedules),
                      ("cached_at", Json.str (toString now)),
                      ("total_count", Json.num schedules.length)]) := by
  simp only [CacheService.set_available_schedules,
    CacheService.get_available_schedules, CacheService.cachePayload,
    redis_setex, redis_get, List.find?]
  simp [Nat.lt_add_of_pos_right httl]

/-- C7 witness: a concrete round-trip through the amended theorem. -/
theorem c7_set_get_roundtrip_witness :
    (0 < 300) ∧
    CacheService.get_available_schedules
        (CacheService.set_available_schedules (some []) 7 [Json.str "slot"]
          (some "2025-01-10") (some 1) 300).2 7 (some "2025-01-10") (some 1) =
      some (Json.obj [("schedules", Json.arr [Json.str "slot"]),
                      ("cached_at", Json.str "7"),
                      ("total_count", Json.num 1)]) :=
  ⟨by decide,
   c7_set_get_roundtrip [] 7 (some "2025-01-10") (some 1) [Json.str "slot"]
     300 (by decide)⟩

/-! ## C8 — cache-store unavailability degrades to pass-through -/

/-- C8: when the connection attempt failed (`init false`, i.e.
`redis_client is None`), every schedule-cache operation takes its early
return: `get` reports a miss, `set` reports failure without writing,
`invalidate` is a no-op.  Each operation is a total function — the early
return precedes every fallible store primitive, so no exception can reach
the caller. -/
theorem c8_unavailable_store_noop (st : RedisStore) (now : Nat)
    (date : Option String) (doctor_id : Option Nat) (schedules : List Json)
    (ttl : Nat) (doctor_id2 : Option Nat) (date2 : Option String) :
    CacheService.get_available_schedules (CacheService.init false st) now
        date doctor_id = none ∧
    CacheService.set_available_schedules (CacheService.init false st) now
        schedules date doctor_id ttl = (false, none) ∧
    CacheService.invalidate_schedule_cache (CacheService.init false st)
        doctor_id2 date2 = none := by
  refine ⟨?_, ?_, ?_⟩ <;>
    simp [CacheService.init, CacheService.get_available_schedules,
      CacheService.set_available_schedules,
      CacheService.invalidate_schedule_cache]

/-! ## C10 — reachable session states

Every session value the endpoint ever stores is created as the fresh idle
session or assigned one of the literals `"registering_patient"` /
`"cancelling_appointment"` / reset to idle; no branch assigns
`"selecting_schedule"`, so that handler branch is unreachable from a fresh
session. -/

/-- The three states assignable by the conversation engine. -/
def good_state (st : String) : Prop :=
  st = "idle" ∨ st = "registering_patient" ∨ st = "cancelling_appointment"

/-- Every stored session is in an assignable state. -/
def good_map (m : SMap) : Prop :=
  ∀ p ∈ m, good_state p.2.state

/-- The fresh session is idle. -/
theorem good_state_fresh : good_state freshSession.state :=
  Or.inl rfl

/-- `registering_patient` is assignable. -/
theorem good_state_registering : good_state "registering_patient" :=
  Or.inr (Or.inl rfl)

/-- `cancelling_appointment` is assignable. -/
theorem good_state_cancelling : good_state "cancelling_appointment" :=
  Or.inr (Or.inr rfl)

/-- Storing a good session preserves the invariant. -/
theorem good_map_updateS : ∀ (m : SMap) (k : String) (v : Session),
    good_map m → good_state v.state → good_map (updateS m k v) := by
  intro m k v
  induction m with
  | nil =>
      intro _ hv p hp
      simp [updateS] at hp
      rw [hp]
      exact hv
  | cons a t ih =>
      intro hm hv p hp
      unfold updateS at hp
      split at hp
      · rcases List.mem_cons.mp hp with h | h
        · rw [h]; exact hv
        · exact hm p (List.mem_cons_of_mem a h)
      · rcases List.mem_cons.mp hp with h | h
        · rw [h]; exact hm a (List.mem_cons_self a t)
        · exact ih (fun q hq => hm q (List.mem_cons_of_mem a hq)) hv p h

/-- A stored session found by lookup is in a good state. -/
theorem lookupS_good {m : SMap} {k : String} {s : Session}
    (hm : good_map m) (h : lookupS m k = some s) : good_state s.state := by
  unfold lookupS at h
  cases hf : List.find? (fun p => p.1 == k) m with
  | none => rw [hf] at h; simp at h
  | some p =>
      rw [hf] at h
      simp at h
      rw [← h]
      exact hm p (List.mem_of_find?_eq_some hf)

/-- `get_user_session` preserves the invariant and hands out a good
session. -/
theorem good_map_get_user_session (m : SMap) (k : String)
    (hm : good_map m) :
    good_map (get_user_session m k).2 ∧
      good_state (get_user_session m k).1.state := by
  unfold get_user_session
  cases hl : lookupS m k with
  | some s => exact ⟨hm, lookupS_good hm hl⟩
  | none =>
      constructor
      · intro p hp
        rcases List.mem_append.mp hp with h | h
        · exact hm p h
        · simp at h
          rw [h]
          exact good_state_fresh
      · exact good_state_fresh

/-- `reset_user_session` preserves the invariant. -/
theorem good_map_reset (m : SMap) (u : String) (hm : good_map m) :
    good_map (reset_user_session m u) := by
  unfold reset_user_session
  split
  · exact good_map_updateS m u freshSession hm good_state_fresh
  · exact hm

/-- The finalizer preserves the invariant (it only ever resets). -/
theorem good_map_cab (m : SMap) (uid : String) (sess : Session) (db : DB)
    (fault : Option Fault) (hm : good_map m) :
    good_map (complete_appointment_booking m uid sess db fault).1 := by
  rcases cab_outcomes m uid sess db fault with h | ⟨d, h⟩ <;> rw [h] <;>
    exact good_map_reset m uid hm

/-- The idle handler preserves the invariant. -/
theorem good_map_handle_idle (m : SMap) (db : DB) (norm msg : String)
    (sess : Session) (hm : good_map m) :
    good_map (handle_idle m db norm msg sess).1 := by
  unfold handle_idle
  repeat' (first | split | (dsimp only; split))
  all_goals first
    | exact hm
    | (refine good_map_updateS _ _ _ hm ?_
       first
         | exact good_state_registering
         | exact good_state_cancelling)

/-- The schedule-selection handler preserves the invariant. -/
theorem good_map_handle_selecting (m : SMap) (db : DB) (norm msg : String)
    (sess : Session) (hm : good_map m) :
    good_map (handle_selecting m db norm msg sess).1 := by
  unfold handle_selecting
  split
  all_goals try dsimp only
  all_goals try split
  all_goals try dsimp only
  all_goals try split
  all_goals first
    | exact hm
    | (refine good_map_updateS _ _ _ hm ?_
       exact good_state_registering)

/-- The registration handler preserves the invariant. -/
theorem good_map_handle_registering (m : SMap) (db : DB)
    (norm uid msg : String) (sess : Session) (fault : Option Fault)
    (hm : good_map m) (hs : good_state sess.state) :
    good_map (handle_registering m db norm uid msg sess fault).1 := by
  unfold handle_registering
  split
  all_goals try dsimp only
  all_goals try split
  all_goals try split
  all_goals try split
  all_goals try split
  all_goals try split
  all_goals first
    | exact hm
    | (refine good_map_updateS _ _ _ (good_map_updateS _ _ _ hm ?_) ?_ <;>
        exact hs)
    | (refine good_map_cab _ _ _ _ _ (good_map_updateS _ _ _ hm ?_)
       exact hs)
    | (refine good_map_updateS _ _ _ hm ?_
       exact hs)

/-- The session-map component of either outcome of a raising handler. -/
def exMap (e : Except (SMap × DB) (SMap × DB × Response)) : SMap :=
  match e with
  | Except.ok r => r.1
  | Except.error sd => sd.1

/-- The cancellation handler preserves the invariant on both its normal
and raising outcomes. -/
theorem good_map_handle_cancelling (m : SMap) (db : DB)
    (norm uid msg : String) (sess : Session)
    (hm : good_map m) (hs : good_state sess.state) :
    good_map (exMap (handle_cancelling m db norm uid msg sess)) := by
  unfold handle_cancelling
  split
  all_goals try dsimp only
  all_goals try split
  all_goals try split
  all_goals try split
  all_goals try split
  all_goals first
    | exact hm
    | exact good_map_reset _ _ hm
    | (refine good_map_updateS _ _ _ hm ?_
       exact hs)

/-- One full turn preserves the invariant, whatever the request. -/
theorem good_map_turn (m : SMap) (db : DB) (uid msg : String)
    (fault : Option Fault) (hm : good_map m) :
    good_map (ai_agent_endpoint m db uid msg fault).1 := by
  obtain ⟨hm1, hs1⟩ := good_map_get_user_session m (normalize_user_id uid) hm
  have hcan := good_map_handle_cancelling
    (get_user_session m (normalize_user_id uid)).2 db (normalize_user_id uid)
    uid msg (get_user_session m (normalize_user_id uid)).1 hm1 hs1
  unfold ai_agent_endpoint
  split
  · exact hm
  split
  · exact hm
  dsimp only
  split
  next r heq =>
    repeat' split at heq
    all_goals first
      | (injection heq with h2
         rw [← h2]
         first
           | exact good_map_handle_idle _ _ _ _ _ hm1
           | exact good_map_handle_selecting _ _ _ _ _ hm1
           | exact good_map_handle_registering _ _ _ _ _ _ _ hm1 hs1
           | exact good_map_reset _ _ hm1)
      | (rw [heq] at hcan; exact hcan)
  next sd heq =>
    repeat' split at heq
    all_goals first
      | exact Except.noConfusion heq
      | (rw [heq] at hcan; exact good_map_reset _ _ hcan)

/-- One inbound request: raw user id, message, and the storage-fault
behaviour of that turn. -/
structure TurnIn where
  user_id : String
  message : String
  fault : Option Fault

/-- Run a sequence of inbound requests from an initial session map and
store. -/
def run_turns (init : SMap × DB) (turns : List TurnIn) : SMap × DB :=
  turns.foldl
    (fun st t =>
      let r := ai_agent_endpoint st.1 st.2 t.user_id t.message t.fault
      (r.1, r.2.1))
    init

/-- The invariant holds along any run. -/
theorem run_turns_good : ∀ (turns : List TurnIn) (st : SMap × DB),
    good_map st.1 → good_map (run_turns st turns).1 := by
  intro turns
  induction turns with
  | nil => intro st h; exact h
  | cons t ts ih =>
      intro st h
      exact ih _ (good_map_turn st.1 st.2 t.user_id t.message t.fault h)

/-- C10: starting from no sessions (every session is then created as the
fresh `{idle, 0, {}}` one), after any sequence of inbound requests every
stored session's state is `idle`, `registering_patient` or
`cancelling_appointment` — never `selecting_schedule`, whose handler
branch is therefore unreachable from a fresh session. -/
theorem c10_reachable_states_exclude_selecting (db0 : DB)
    (turns : List TurnIn) (uid : String) (s : Session)
    (h : lookupS (run_turns ([], db0) turns).1 uid = some s) :
    (s.state = "idle" ∨ s.state = "registering_patient" ∨
     s.state = "cancelling_appointment") ∧
    s.state ≠ "selecting_schedule" := by
  have hg : good_map (run_turns ([], db0) turns).1 :=
    run_turns_good turns ([], db0) (by intro p hp; simp at hp)
  have hs := lookupS_good hg h
  refine ⟨hs, ?_⟩
  rcases hs with h1 | h1 | h1 <;> rw [h1] <;> decide

/-- Fixture: an empty store for the reachability witness. -/
def dbC10 : DB :=
  { patients := [], doctors := [], appointments := [], schedules := [],
    nextPatientId := 1, nextAppointmentId := 1 }

/-- C10 witness: after the single turn "Oi" from a fresh user, the stored
session is the fresh idle one and the theorem applies to it. -/
theorem c10_reachable_states_exclude_selecting_witness :
    lookupS (run_turns ([], dbC10) [⟨"u1", "Oi", none⟩]).1 "u1" =
      some freshSession ∧
    ((freshSession.state = "idle" ∨
      freshSession.state = "registering_patient" ∨
      freshSession.state = "cancelling_appointment") ∧
     freshSession.state ≠ "selecting_schedule") :=
  ⟨by decide,
   c10_reachable_states_exclude_selecting dbC10 [⟨"u1", "Oi", none⟩] "u1"
     freshSession (by decide)⟩
